import Mathlib

/-!
# Backyard Ultra Training Plan Generator — verification development

Shallow embedding of the two logic modules of the repository:

* the two-tier (average/peak) variant — `validate`, `buildPlaceholderPlan`,
  `interpolate`, `round1` — lives in namespace `TwoTier`;
* the single-tier variant (`app.js`) — `validateDataInput`,
  `buildPlaceholderPlan`, `round1` — lives in namespace `SingleTier`.

JavaScript numbers are modelled as rationals (`ℚ`), with `none : Option ℚ`
standing for `NaN` (the result of `parseFloat` on bad input); calendar dates
are modelled as integer day numbers (`ℤ`), so subtracting `n * 7` calendar
days is subtracting `n * 7`, and comparing the date-only midnights of two
dates is comparing the two day numbers.  `Math.round` is `⌊x + 1/2⌋`
(round-half-up), which is exact on the rational model.
-/

namespace BackyardUltra

/-- A weekly plan entry `{ weekNumber, plannedHours }` as pushed by both
generators. -/
structure WeekEntry where
  weekNumber : ℤ
  plannedHours : ℚ
  deriving Repr, DecidableEq

/-- The plan record `{ startDate, weeks }` returned by both generators;
`startDate` is a day number. -/
structure Plan where
  startDate : ℤ
  weeks : List WeekEntry
  deriving Repr, DecidableEq

/-- `Math.round(v)` of JavaScript on the rational model: round half up. -/
def jsRound (v : ℚ) : ℤ := ⌊v + 1/2⌋

/-- `function round1(v) { return Math.round(v * 10) / 10; }` — identical in
both source files. -/
def round1 (v : ℚ) : ℚ := (jsRound (v * 10) : ℚ) / 10

namespace TwoTier

/-- The input record collected by `collectFormData` in the two-tier variant:
`{ targetDate, planLengthWeeks, avgHours, peakHours, selectedDays }`.
`targetDate` is `none` when the field is empty, `avgHours`/`peakHours` are
`none` when `parseFloat` returns `NaN`. -/
structure InputData where
  targetDate : Option ℤ
  planLengthWeeks : ℤ
  avgHours : Option ℚ
  peakHours : Option ℚ
  selectedDays : List String
  deriving Repr, DecidableEq

/-- `function validate(data)` of the two-tier variant.  The wall-clock date
sampled once by `const now = new Date()` is the explicit parameter `today`
(a day number, standing for `todayMidnight`).  Each rule appends its fixed
message exactly as in the source, in the source's order. -/
def validate (today : ℤ) (data : InputData) : List String :=
  (match data.targetDate with
   | none => ["Please select a target backyard ultra date."]
   | some t =>
     if t ≤ today then ["Target date must be in the future."] else []) ++
  (if data.planLengthWeeks = 8 ∨ data.planLengthWeeks = 12 ∨
      data.planLengthWeeks = 16 then []
   else ["Please select a training plan length (8, 12, or 16 weeks)."]) ++
  (match data.avgHours with
   | none => ["Average weekly training hours must be a positive number."]
   | some a =>
     if a ≤ 0 then ["Average weekly training hours must be a positive number."]
     else []) ++
  (match data.peakHours with
   | none => ["Peak weekly training hours must be a positive number."]
   | some p =>
     if p ≤ 0 then ["Peak weekly training hours must be a positive number."]
     else []) ++
  (match data.avgHours, data.peakHours with
   | some a, some p =>
     if p < a then
       ["Peak weekly hours should be greater than or equal to average weekly hours."]
     else []
   | _, _ => []) ++
  (if data.selectedDays.length = 0 then ["Select at least one training day."]
   else []) ++
  (match data.avgHours with
   | some a =>
     if data.selectedDays.length ≠ 0 then
       if a / (data.selectedDays.length : ℚ) < 1/4 then
         ["Average hours per selected training day is very low (<0.25h). Consider adjusting days or hours."]
       else []
     else []
   | none => [])

/-- `function interpolate(x, x0, x1, y0, y1)` of the two-tier variant. -/
def interpolate (x x0 x1 y0 y1 : ℚ) : ℚ :=
  if x1 = x0 then y0 else y0 + (y1 - y0) * ((x - x0) / (x1 - x0))

/-- The body of the week loop of the two-tier `buildPlaceholderPlan`: the
hours before rounding, for zero-based week index `w` against
`peakWeekIndex`.  `Math.pow(0.8, w - peakWeekIndex)` is `(4/5)^k` with the
exponent taken in `ℕ` (in the taper branch `w > peakWeekIndex`, so the
exponent is a positive integer). -/
def plannedRaw (avgHours peakHours : ℚ) (peakWeekIndex : ℤ) (w : ℕ) : ℚ :=
  if (w : ℤ) < peakWeekIndex then
    interpolate (w : ℚ) 0 (peakWeekIndex : ℚ) avgHours peakHours
  else if (w : ℤ) = peakWeekIndex then
    peakHours
  else
    max avgHours (peakHours * (4/5) ^ ((w : ℤ) - peakWeekIndex).toNat)

/-- `function buildPlaceholderPlan(data)` of the two-tier variant, on the
validated domain (targetDate present, hours numeric): `startDate =
targetDate - planLengthWeeks*7` days; `peakWeekIndex =
Math.floor(totalWeeks * 0.65)`; one entry per `w` in
`0 .. totalWeeks - 1` with `weekNumber = w + 1` and `plannedHours =
round1(plannedRaw w)`. -/
def buildPlaceholderPlan (targetDate planLengthWeeks : ℤ)
    (avgHours peakHours : ℚ) : Plan :=
  let startDate := targetDate - planLengthWeeks * 7
  let totalWeeks := planLengthWeeks
  let peakWeekIndex : ℤ := ⌊(totalWeeks : ℚ) * (65/100)⌋
  { startDate := startDate
    weeks := (List.range totalWeeks.toNat).map fun (w : ℕ) =>
      { weekNumber := (w : ℤ) + 1
        plannedHours := round1 (plannedRaw avgHours peakHours peakWeekIndex w) } }

end TwoTier

namespace SingleTier

/-- The input record collected by `collectFormData` in `app.js`:
`{ targetDate, planLengthWeeks, avgHours, selectedDays }` (no peakHours). -/
structure DataInput where
  targetDate : Option ℤ
  planLengthWeeks : ℤ
  avgHours : Option ℚ
  selectedDays : List String
  deriving Repr, DecidableEq

/-- `function validateDataInput(data)` of `app.js`.  Note the `else if`
chains: the average-hours floor rule runs only when the positivity rule
passed, and the day rules (empty / fewer than 3 / no long-run day) are an
`if / else if / else if` chain, as are the two intensity-band rules. -/
def validateDataInput (data : DataInput) : List String :=
  (match data.targetDate with
   | none => ["Please select a target backyard ultra date."]
   | some _ => []) ++
  (if data.planLengthWeeks = 8 ∨ data.planLengthWeeks = 12 ∨
      data.planLengthWeeks = 16 then []
   else ["Please select a training plan length (8, 12, or 16 weeks)."]) ++
  (match data.avgHours with
   | none => ["Average weekly training hours must be a positive number."]
   | some a =>
     if a ≤ 0 then ["Average weekly training hours must be a positive number."]
     else if a < 6 then
       ["Average weekly training is lower than the minimum of 6 hrs."]
     else []) ++
  (if data.selectedDays.length = 0 then ["Select at least one training day."]
   else if data.selectedDays.length < 3 then
     ["Number of selected days is lower than the minimum of 3."]
   else if ¬("Thu" ∈ data.selectedDays) ∧ ¬("Sat" ∈ data.selectedDays) ∧
           ¬("Sun" ∈ data.selectedDays) then
     ["Please include one between Tuesday, Saturday or Sunday as a training day to accommodate long runs."]
   else []) ++
  (match data.avgHours with
   | some a =>
     if data.selectedDays.length ≠ 0 then
       if a / (data.selectedDays.length : ℚ) < 3/2 then
         ["The desired average running time per running day should be at least 1.5. Consider adjusting days or hours."]
       else if a / (data.selectedDays.length : ℚ) > 7/2 then
         ["The desired average running time per running day should be at less than 3.5. Consider adjusting days or hours."]
       else []
     else []
   | none => [])

/-- `function buildPlaceholderPlan(data)` of `app.js`, on the validated
domain: `startDate = targetDate - planLengthWeeks*7` days and every week
uses `round1(avgHours)`. -/
def buildPlaceholderPlan (targetDate planLengthWeeks : ℤ)
    (avgHours : ℚ) : Plan :=
  let startDate := targetDate - planLengthWeeks * 7
  { startDate := startDate
    weeks := (List.range planLengthWeeks.toNat).map fun (w : ℕ) =>
      { weekNumber := (w : ℤ) + 1
        plannedHours := round1 avgHours } }

end SingleTier

/-- The eight two-tier rule messages, verbatim and in the fixed evaluation
order of `validate` (presence, futurity, plan length, average positivity,
peak positivity, peak ≥ average, day non-empty, per-day intensity). -/
def canonicalMessages : List String :=
  ["Please select a target backyard ultra date.",
   "Target date must be in the future.",
   "Please select a training plan length (8, 12, or 16 weeks).",
   "Average weekly training hours must be a positive number.",
   "Peak weekly training hours must be a positive number.",
   "Peak weekly hours should be greater than or equal to average weekly hours.",
   "Select at least one training day.",
   "Average hours per selected training day is very low (<0.25h). Consider adjusting days or hours."]

/-- "No rule of the two-tier `validate` fails": the negation of each rule's
push condition, read off the source. -/
def TwoTier.passesAll (today : ℤ) (d : TwoTier.InputData) : Prop :=
  (match d.targetDate with | none => False | some t => ¬ t ≤ today) ∧
  (d.planLengthWeeks = 8 ∨ d.planLengthWeeks = 12 ∨ d.planLengthWeeks = 16) ∧
  (match d.avgHours with | none => False | some a => ¬ a ≤ 0) ∧
  (match d.peakHours with | none => False | some p => ¬ p ≤ 0) ∧
  (match d.avgHours, d.peakHours with
   | some a, some p => ¬ p < a
   | _, _ => True) ∧
  ¬ d.selectedDays.length = 0 ∧
  (match d.avgHours with
   | some a => d.selectedDays.length ≠ 0 →
       ¬ a / (d.selectedDays.length : ℚ) < 1/4
   | none => True)

/-- "No rule of the single-tier `validateDataInput` fails": the negation of
each rule's push condition, read off the source (the `else if` chains make
the later conditions of a chain count only when the earlier ones passed). -/
def SingleTier.passesAll (d : SingleTier.DataInput) : Prop :=
  d.targetDate ≠ none ∧
  (d.planLengthWeeks = 8 ∨ d.planLengthWeeks = 12 ∨ d.planLengthWeeks = 16) ∧
  (match d.avgHours with | none => False | some a => ¬ a ≤ 0 ∧ ¬ a < 6) ∧
  (¬ d.selectedDays.length = 0 ∧ ¬ d.selectedDays.length < 3 ∧
    ¬ (¬ ("Thu" ∈ d.selectedDays) ∧ ¬ ("Sat" ∈ d.selectedDays) ∧
       ¬ ("Sun" ∈ d.selectedDays))) ∧
  (match d.avgHours with
   | some a => d.selectedDays.length ≠ 0 →
       ¬ a / (d.selectedDays.length : ℚ) < 3/2 ∧
       ¬ a / (d.selectedDays.length : ℚ) > 7/2
   | none => True)

/-! ## Helper lemmas -/

theorem mem_if_list {s : String} {c : Prop} [Decidable c] {L : List String} :
    s ∈ (if c then L else ([] : List String)) ↔ c ∧ s ∈ L := by
  split <;> simp_all

theorem if_eq_nil_iff {c : Prop} [Decidable c] {L1 L2 : List String} :
    (if c then L1 else L2) = [] ↔ (c → L1 = []) ∧ (¬ c → L2 = []) := by
  split <;> simp_all

theorem jsRound_mono {a b : ℚ} (h : a ≤ b) : jsRound a ≤ jsRound b :=
  Int.floor_le_floor (by linarith)

theorem round1_mono {a b : ℚ} (h : a ≤ b) : round1 a ≤ round1 b := by
  unfold round1
  have : jsRound (a * 10) ≤ jsRound (b * 10) := jsRound_mono (by linarith)
  have : (jsRound (a * 10) : ℚ) ≤ (jsRound (b * 10) : ℚ) := by exact_mod_cast this
  linarith

theorem twoTier_weeks_length (td n : ℤ) (avg peak : ℚ) :
    (TwoTier.buildPlaceholderPlan td n avg peak).weeks.length = n.toNat := by
  simp [TwoTier.buildPlaceholderPlan]

theorem twoTier_weeks_getElem (td n : ℤ) (avg peak : ℚ) (w : ℕ)
    (hw : w < (TwoTier.buildPlaceholderPlan td n avg peak).weeks.length) :
    (TwoTier.buildPlaceholderPlan td n avg peak).weeks[w] =
      ⟨(w : ℤ) + 1,
        round1 (TwoTier.plannedRaw avg peak ⌊(n : ℚ) * (65/100)⌋ w)⟩ := by
  simp [TwoTier.buildPlaceholderPlan] at hw ⊢

theorem singleTier_weeks_length (td n : ℤ) (avg : ℚ) :
    (SingleTier.buildPlaceholderPlan td n avg).weeks.length = n.toNat := by
  simp [SingleTier.buildPlaceholderPlan]

theorem singleTier_weeks_getElem (td n : ℤ) (avg : ℚ) (w : ℕ)
    (hw : w < (SingleTier.buildPlaceholderPlan td n avg).weeks.length) :
    (SingleTier.buildPlaceholderPlan td n avg).weeks[w] =
      ⟨(w : ℤ) + 1, round1 avg⟩ := by
  simp [SingleTier.buildPlaceholderPlan] at hw ⊢

theorem TwoTier.plannedRaw_zero (avg peak : ℚ) (pwi : ℤ) (hp : 0 < pwi) :
    TwoTier.plannedRaw avg peak pwi 0 = avg := by
  have h1 : ((0 : ℕ) : ℤ) < pwi := by exact_mod_cast hp
  have h2 : (pwi : ℚ) ≠ 0 := by exact_mod_cast hp.ne'
  unfold TwoTier.plannedRaw
  rw [if_pos h1]
  simp [TwoTier.interpolate, h2]

theorem TwoTier.plannedRaw_ramp (avg peak : ℚ) (pwi : ℤ) (w : ℕ)
    (hw : (w : ℤ) < pwi) :
    TwoTier.plannedRaw avg peak pwi w
      = avg + (peak - avg) * ((w : ℚ) / (pwi : ℚ)) := by
  have hp : 0 < pwi := lt_of_le_of_lt (Int.ofNat_nonneg w) hw
  have h2 : (pwi : ℚ) ≠ 0 := by exact_mod_cast hp.ne'
  simp [TwoTier.plannedRaw, TwoTier.interpolate, hw, h2]

theorem TwoTier.plannedRaw_peak (avg peak : ℚ) (pwi : ℤ) (hp : 0 ≤ pwi) :
    TwoTier.plannedRaw avg peak pwi pwi.toNat = peak := by
  have h1 : ((pwi.toNat : ℤ)) = pwi := Int.toNat_of_nonneg hp
  simp [TwoTier.plannedRaw, h1]

theorem TwoTier.plannedRaw_taper (avg peak : ℚ) (pwi : ℤ) (w : ℕ)
    (hp : 0 ≤ pwi) (hw : pwi < (w : ℤ)) :
    TwoTier.plannedRaw avg peak pwi w
      = max avg (peak * (4/5) ^ (w - pwi.toNat)) := by
  have h1 : ¬ ((w : ℤ) < pwi) := by omega
  have h2 : ¬ ((w : ℤ) = pwi) := by omega
  have h3 : ((w : ℤ) - pwi).toNat = w - pwi.toNat := by omega
  simp [TwoTier.plannedRaw, h1, h2, h3]

theorem floor_65_8 : ⌊((8 : ℤ) : ℚ) * (65/100)⌋ = 5 := by
  rw [Int.floor_eq_iff]
  norm_num

theorem floor_65_12 : ⌊((12 : ℤ) : ℚ) * (65/100)⌋ = 7 := by
  rw [Int.floor_eq_iff]
  norm_num

theorem floor_65_16 : ⌊((16 : ℤ) : ℚ) * (65/100)⌋ = 10 := by
  rw [Int.floor_eq_iff]
  norm_num

/-- For the three valid plan lengths, `peakWeekIndex = ⌊n * 0.65⌋` is one of
5, 7, 10; in particular it is positive and below `n`. -/
theorem pwi_facts {n : ℤ} (hn : n = 8 ∨ n = 12 ∨ n = 16) :
    (⌊(n : ℚ) * (65/100)⌋ = 5 ∨ ⌊(n : ℚ) * (65/100)⌋ = 7 ∨
        ⌊(n : ℚ) * (65/100)⌋ = 10) ∧
      0 < ⌊(n : ℚ) * (65/100)⌋ ∧ ⌊(n : ℚ) * (65/100)⌋ < n := by
  rcases hn with h | h | h <;> subst h
  · rw [floor_65_8]
    exact ⟨Or.inl rfl, by norm_num, by norm_num⟩
  · rw [floor_65_12]
    exact ⟨Or.inr (Or.inl rfl), by norm_num, by norm_num⟩
  · rw [floor_65_16]
    exact ⟨Or.inr (Or.inr rfl), by norm_num, by norm_num⟩

theorem twoTier_weeks_getElemOpt (td n : ℤ) (avg peak : ℚ) (w : ℕ)
    (hw : w < n.toNat) :
    (TwoTier.buildPlaceholderPlan td n avg peak).weeks[w]? =
      some ⟨(w : ℤ) + 1,
        round1 (TwoTier.plannedRaw avg peak ⌊(n : ℚ) * (65/100)⌋ w)⟩ := by
  have hlen : w < (TwoTier.buildPlaceholderPlan td n avg peak).weeks.length := by
    rw [twoTier_weeks_length]
    exact hw
  rw [List.getElem?_eq_getElem hlen, twoTier_weeks_getElem td n avg peak w hlen]

theorem singleTier_weeks_getElemOpt (td n : ℤ) (avg : ℚ) (w : ℕ)
    (hw : w < n.toNat) :
    (SingleTier.buildPlaceholderPlan td n avg).weeks[w]? =
      some ⟨(w : ℤ) + 1, round1 avg⟩ := by
  have hlen : w < (SingleTier.buildPlaceholderPlan td n avg).weeks.length := by
    rw [singleTier_weeks_length]
    exact hw
  rw [List.getElem?_eq_getElem hlen, singleTier_weeks_getElem td n avg w hlen]

/-- Any entry actually present at index `w` of the two-tier plan is the
rounded `plannedRaw` value with `weekNumber = w + 1`, and `w` is in range. -/
theorem twoTier_entry_of_getElemOpt (td n : ℤ) (avg peak : ℚ) (w : ℕ)
    (e : WeekEntry)
    (he : (TwoTier.buildPlaceholderPlan td n avg peak).weeks[w]? = some e) :
    e = ⟨(w : ℤ) + 1,
        round1 (TwoTier.plannedRaw avg peak ⌊(n : ℚ) * (65/100)⌋ w)⟩ ∧
      w < n.toNat := by
  have hw : w < (TwoTier.buildPlaceholderPlan td n avg peak).weeks.length := by
    by_contra hcon
    rw [List.getElem?_eq_none (le_of_not_lt hcon)] at he
    cases he
  have hwn : w < n.toNat := by rwa [twoTier_weeks_length] at hw
  rw [twoTier_weeks_getElemOpt td n avg peak w hwn] at he
  exact ⟨(Option.some.inj he).symm, hwn⟩

/-- Any entry actually present at index `w` of the single-tier plan carries
`round1 avgHours`, and `w` is in range. -/
theorem singleTier_entry_of_getElemOpt (td n : ℤ) (avg : ℚ) (w : ℕ)
    (e : WeekEntry)
    (he : (SingleTier.buildPlaceholderPlan td n avg).weeks[w]? = some e) :
    e = ⟨(w : ℤ) + 1, round1 avg⟩ ∧ w < n.toNat := by
  have hw : w < (SingleTier.buildPlaceholderPlan td n avg).weeks.length := by
    by_contra hcon
    rw [List.getElem?_eq_none (le_of_not_lt hcon)] at he
    cases he
  have hwn : w < n.toNat := by rwa [singleTier_weeks_length] at hw
  rw [singleTier_weeks_getElemOpt td n avg w hwn] at he
  exact ⟨(Option.some.inj he).symm, hwn⟩

/-- The taper expression is antitone in the week offset. -/
theorem taper_antitone (avg peak : ℚ) (havg : 0 < avg) (hap : avg ≤ peak)
    {k k' : ℕ} (hk : k ≤ k') :
    max avg (peak * (4/5) ^ k') ≤ max avg (peak * (4/5) ^ k) := by
  apply max_le_max le_rfl
  apply mul_le_mul_of_nonneg_left _ (le_trans havg.le hap)
  exact pow_le_pow_of_le_one (by norm_num) (by norm_num) hk

/-- On the validated domain the raw weekly hours stay within
`[avgHours, peakHours]` in every branch of the loop body. -/
theorem TwoTier.plannedRaw_bounds (avg peak : ℚ) (pwi : ℤ) (w : ℕ)
    (havg : 0 < avg) (hap : avg ≤ peak) :
    avg ≤ TwoTier.plannedRaw avg peak pwi w ∧
      TwoTier.plannedRaw avg peak pwi w ≤ peak := by
  unfold TwoTier.plannedRaw
  split
  · rename_i hwlt
    have hp : 0 < pwi := lt_of_le_of_lt (Int.ofNat_nonneg w) hwlt
    have hq : (0 : ℚ) < (pwi : ℚ) := by exact_mod_cast hp
    have hne : ((pwi : ℚ)) ≠ 0 := hq.ne'
    have hwq : ((w : ℚ)) < (pwi : ℚ) := by exact_mod_cast hwlt
    have ht0 : (0 : ℚ) ≤ (w : ℚ) / (pwi : ℚ) :=
      div_nonneg (Nat.cast_nonneg w) hq.le
    have ht1 : (w : ℚ) / (pwi : ℚ) ≤ 1 := le_of_lt ((div_lt_one hq).mpr hwq)
    rw [TwoTier.interpolate, if_neg hne, sub_zero, sub_zero]
    constructor
    · nlinarith [mul_nonneg (sub_nonneg.mpr hap) ht0]
    · nlinarith [mul_nonneg (sub_nonneg.mpr hap) (sub_nonneg.mpr ht1)]
  · split
    · exact ⟨hap, le_rfl⟩
    · constructor
      · exact le_max_left _ _
      · apply max_le hap
        apply mul_le_of_le_one_right (le_trans havg.le hap)
        exact pow_le_one₀ (by norm_num) (by norm_num)

/-! ## C1 — single-tier long-run-day coverage rule -/

/-- C1, counterexample: the record `{targetDate: some day, planLengthWeeks: 8,
avgHours: 10, selectedDays: ["Mon"]}` has a non-empty `selectedDays`
containing none of Thu, Sat, Sun, yet `validateDataInput` does NOT include
the long-run-day coverage violation — the `else if` chain lets the
minimum-3-days rule short-circuit it. -/
theorem c1_long_run_counterexample :
    "Please include one between Tuesday, Saturday or Sunday as a training day to accommodate long runs."
        ∉ SingleTier.validateDataInput ⟨some 100, 8, some 10, ["Mon"]⟩ ∧
      (["Mon"] : List String) ≠ [] ∧
      "Thu" ∉ (["Mon"] : List String) ∧
      "Sat" ∉ (["Mon"] : List String) ∧
      "Sun" ∉ (["Mon"] : List String) := by
  refine ⟨?_, by decide, by decide, by decide, by decide⟩
  norm_num [SingleTier.validateDataInput]
  decide

/-- C1, amended: for every single-tier input record whose `selectedDays` has
at least 3 entries and contains none of the long-run days Thu, Sat, Sun,
`validateDataInput` includes the long-run-day coverage violation.  (For
non-empty selections of fewer than 3 days the minimum-day-count rule of the
`else if` chain fires instead, so the violation is absent.) -/
theorem c1_long_run_rule (d : SingleTier.DataInput)
    (h3 : 3 ≤ d.selectedDays.length)
    (hthu : "Thu" ∉ d.selectedDays)
    (hsat : "Sat" ∉ d.selectedDays)
    (hsun : "Sun" ∉ d.selectedDays) :
    "Please include one between Tuesday, Saturday or Sunday as a training day to accommodate long runs."
      ∈ SingleTier.validateDataInput d := by
  have h0 : ¬ d.selectedDays.length = 0 := by omega
  have hlt : ¬ d.selectedDays.length < 3 := by omega
  have hcond : ¬ ("Thu" ∈ d.selectedDays) ∧ ¬ ("Sat" ∈ d.selectedDays) ∧
      ¬ ("Sun" ∈ d.selectedDays) := ⟨hthu, hsat, hsun⟩
  unfold SingleTier.validateDataInput
  simp only [List.mem_append, if_neg h0, if_neg hlt, if_pos hcond]
  refine Or.inl (Or.inr ?_)
  simp

/-- Witness for `c1_long_run_rule` at the concrete record
`{targetDate: some day, planLengthWeeks: 8, avgHours: 10,
selectedDays: ["Mon", "Tue", "Wed"]}`. -/
theorem c1_long_run_rule_witness :
    3 ≤ (["Mon", "Tue", "Wed"] : List String).length ∧
      "Please include one between Tuesday, Saturday or Sunday as a training day to accommodate long runs."
        ∈ SingleTier.validateDataInput ⟨some 100, 8, some 10, ["Mon", "Tue", "Wed"]⟩ :=
  ⟨by decide,
    c1_long_run_rule ⟨some 100, 8, some 10, ["Mon", "Tue", "Wed"]⟩
      (by decide) (by decide) (by decide) (by decide)⟩

/-! ## C2 — two-tier ramp and peak week -/

/-- C2: for every valid two-tier input (`planLengthWeeks ∈ {8,12,16}`,
`0 < avgHours ≤ peakHours`), with `peakWeekIndex = ⌊planLengthWeeks * 0.65⌋`
(zero-based), the entry at `peakWeekIndex` exists and has
`plannedHours = round1 peakHours`, and every entry at `w < peakWeekIndex`
has `plannedHours = round1 (avgHours + (peakHours - avgHours) *
(w / peakWeekIndex))`. -/
theorem c2_ramp_and_peak (td n : ℤ) (avg peak : ℚ) (pwi : ℤ)
    (hn : n = 8 ∨ n = 12 ∨ n = 16) (havg : 0 < avg) (hap : avg ≤ peak)
    (hpwi : pwi = ⌊(n : ℚ) * (65/100)⌋) :
    (TwoTier.buildPlaceholderPlan td n avg peak).weeks[pwi.toNat]? =
        some ⟨(pwi.toNat : ℤ) + 1, round1 peak⟩ ∧
      ∀ w : ℕ, (w : ℤ) < pwi →
        (TwoTier.buildPlaceholderPlan td n avg peak).weeks[w]? =
          some ⟨(w : ℤ) + 1,
            round1 (avg + (peak - avg) * ((w : ℚ) / (pwi : ℚ)))⟩ := by
  obtain ⟨hpv, hp0, hlt⟩ := pwi_facts hn
  rw [← hpwi] at hpv hp0 hlt
  constructor
  · rw [twoTier_weeks_getElemOpt td n avg peak pwi.toNat (by omega), ← hpwi,
      TwoTier.plannedRaw_peak avg peak pwi hp0.le]
  · intro w hw
    rw [twoTier_weeks_getElemOpt td n avg peak w (by omega), ← hpwi,
      TwoTier.plannedRaw_ramp avg peak pwi w hw]

/-- Witness for `c2_ramp_and_peak` at `targetDate = 0`, `planLengthWeeks = 8`,
`avgHours = 10`, `peakHours = 15`, `peakWeekIndex = 5`: week 6 is the peak
week with `round1 15` hours, and week 1 ramps from `round1 10`. -/
theorem c2_ramp_and_peak_witness :
    (((8 : ℤ) = 8 ∨ (8 : ℤ) = 12 ∨ (8 : ℤ) = 16) ∧ (0 : ℚ) < 10 ∧
        (10 : ℚ) ≤ 15 ∧ (5 : ℤ) = ⌊((8 : ℤ) : ℚ) * (65/100)⌋) ∧
      (TwoTier.buildPlaceholderPlan 0 8 10 15).weeks[(5 : ℤ).toNat]? =
        some ⟨((5 : ℤ).toNat : ℤ) + 1, round1 15⟩ ∧
      (TwoTier.buildPlaceholderPlan 0 8 10 15).weeks[(0 : ℕ)]? =
        some ⟨((0 : ℕ) : ℤ) + 1,
          round1 (10 + (15 - 10) * (((0 : ℕ) : ℚ) / ((5 : ℤ) : ℚ)))⟩ := by
  have h := c2_ramp_and_peak 0 8 10 15 5 (Or.inl rfl) (by norm_num)
    (by norm_num) (by rw [floor_65_8])
  exact ⟨⟨Or.inl rfl, by norm_num, by norm_num, by rw [floor_65_8]⟩,
    h.1, h.2 0 (by norm_num)⟩

/-! ## C3 — schedule shape and start date, both variants -/

/-- C3: for every input record (in both variants) the returned schedule has
exactly `planLengthWeeks` entries, their `weekNumber` values are exactly
`1 .. planLengthWeeks` in increasing order, and
`startDate = targetDate - planLengthWeeks * 7` days, so
`startDate + planLengthWeeks * 7 = targetDate`. -/
theorem c3_schedule_shape (td n : ℤ) (avg peak : ℚ) :
    ((TwoTier.buildPlaceholderPlan td n avg peak).weeks.length = n.toNat ∧
      (TwoTier.buildPlaceholderPlan td n avg peak).weeks.map
          WeekEntry.weekNumber
        = (List.range n.toNat).map (fun (w : ℕ) => (w : ℤ) + 1) ∧
      (TwoTier.buildPlaceholderPlan td n avg peak).startDate = td - n * 7 ∧
      (TwoTier.buildPlaceholderPlan td n avg peak).startDate + n * 7 = td) ∧
    ((SingleTier.buildPlaceholderPlan td n avg).weeks.length = n.toNat ∧
      (SingleTier.buildPlaceholderPlan td n avg).weeks.map
          WeekEntry.weekNumber
        = (List.range n.toNat).map (fun (w : ℕ) => (w : ℤ) + 1) ∧
      (SingleTier.buildPlaceholderPlan td n avg).startDate = td - n * 7 ∧
      (SingleTier.buildPlaceholderPlan td n avg).startDate + n * 7 = td) := by
  refine ⟨⟨?_, ?_, ?_, ?_⟩, ?_, ?_, ?_, ?_⟩
  · simp [TwoTier.buildPlaceholderPlan]
  · simp only [TwoTier.buildPlaceholderPlan, List.map_map]
    rfl
  · simp [TwoTier.buildPlaceholderPlan]
  · simp only [TwoTier.buildPlaceholderPlan]
    ring
  · simp [SingleTier.buildPlaceholderPlan]
  · simp only [SingleTier.buildPlaceholderPlan, List.map_map]
    rfl
  · simp [SingleTier.buildPlaceholderPlan]
  · simp only [SingleTier.buildPlaceholderPlan]
    ring

/-! ## C10 — peak index membership and interpolation safety -/

/-- C10: under the precondition `planLengthWeeks ∈ {8,12,16}`,
`peakWeekIndex = ⌊planLengthWeeks * 0.65⌋` is one of 5, 7, 10, hence
strictly positive, so the `x1 == x0` degenerate guard of `interpolate` (the
test `peakWeekIndex = 0`) is false and the interpolation division is by a
non-zero denominator; and the first week's `plannedHours` equals
`round1 avgHours` exactly. -/
theorem c10_peak_index_safety (td n : ℤ) (avg peak : ℚ)
    (hn : n = 8 ∨ n = 12 ∨ n = 16) :
    (⌊(n : ℚ) * (65/100)⌋ = 5 ∨ ⌊(n : ℚ) * (65/100)⌋ = 7 ∨
        ⌊(n : ℚ) * (65/100)⌋ = 10) ∧
      0 < ⌊(n : ℚ) * (65/100)⌋ ∧
      ((⌊(n : ℚ) * (65/100)⌋ : ℚ) ≠ (0 : ℚ)) ∧
      ((⌊(n : ℚ) * (65/100)⌋ : ℚ) - (0 : ℚ) ≠ 0) ∧
      (TwoTier.buildPlaceholderPlan td n avg peak).weeks[(0 : ℕ)]? =
        some ⟨1, round1 avg⟩ := by
  obtain ⟨hpv, hp0, hlt⟩ := pwi_facts hn
  have hq : ((⌊(n : ℚ) * (65/100)⌋ : ℚ)) ≠ 0 := by exact_mod_cast hp0.ne'
  refine ⟨hpv, hp0, hq, by simpa using hq, ?_⟩
  rw [twoTier_weeks_getElemOpt td n avg peak 0 (by omega),
    TwoTier.plannedRaw_zero avg peak _ hp0]
  norm_num

/-- Witness for `c10_peak_index_safety` at `planLengthWeeks = 8`,
`avgHours = 10`, `peakHours = 15`. -/
theorem c10_peak_index_safety_witness :
    ((8 : ℤ) = 8 ∨ (8 : ℤ) = 12 ∨ (8 : ℤ) = 16) ∧
      0 < ⌊((8 : ℤ) : ℚ) * (65/100)⌋ ∧
      (TwoTier.buildPlaceholderPlan 0 8 10 15).weeks[(0 : ℕ)]? =
        some ⟨1, round1 10⟩ := by
  have h := c10_peak_index_safety 0 8 10 15 (Or.inl rfl)
  exact ⟨Or.inl rfl, h.2.1, h.2.2.2.2⟩

/-! ## C4 — taper formula, monotonicity and floor -/

/-- C4: for every valid two-tier input and every week index
`w > peakWeekIndex`, the entry's `plannedHours` equals
`round1 (max avgHours (peakHours * 0.8 ^ (w - peakWeekIndex)))`; over those
indices the `plannedHours` values are non-increasing, never drop below
`round1 avgHours`, and once a value equals `round1 avgHours` every later
value is `round1 avgHours` as well. -/
theorem c4_taper (td n : ℤ) (avg peak : ℚ) (pwi : ℤ)
    (hn : n = 8 ∨ n = 12 ∨ n = 16) (havg : 0 < avg) (hap : avg ≤ peak)
    (hpwi : pwi = ⌊(n : ℚ) * (65/100)⌋) :
    (∀ w : ℕ, pwi < (w : ℤ) → w < n.toNat →
      (TwoTier.buildPlaceholderPlan td n avg peak).weeks[w]? =
        some ⟨(w : ℤ) + 1,
          round1 (max avg (peak * (4/5) ^ (w - pwi.toNat)))⟩) ∧
    (∀ w w' : ℕ, pwi < (w : ℤ) → w ≤ w' → ∀ e e' : WeekEntry,
      (TwoTier.buildPlaceholderPlan td n avg peak).weeks[w]? = some e →
      (TwoTier.buildPlaceholderPlan td n avg peak).weeks[w']? = some e' →
      e'.plannedHours ≤ e.plannedHours ∧
        round1 avg ≤ e.plannedHours ∧
        (e.plannedHours = round1 avg → e'.plannedHours = round1 avg)) := by
  obtain ⟨hpv, hp0, hlt⟩ := pwi_facts hn
  rw [← hpwi] at hpv hp0 hlt
  constructor
  · intro w hw hwn
    rw [twoTier_weeks_getElemOpt td n avg peak w hwn, ← hpwi,
      TwoTier.plannedRaw_taper avg peak pwi w hp0.le hw]
  · intro w w' hw hww e e' he he'
    obtain ⟨heq, hwn⟩ := twoTier_entry_of_getElemOpt td n avg peak w e he
    obtain ⟨heq', hwn'⟩ := twoTier_entry_of_getElemOpt td n avg peak w' e' he'
    subst heq heq'
    have hw' : pwi < (w' : ℤ) := lt_of_lt_of_le hw (by exact_mod_cast hww)
    rw [← hpwi, TwoTier.plannedRaw_taper avg peak pwi w hp0.le hw,
      TwoTier.plannedRaw_taper avg peak pwi w' hp0.le hw']
    have hkk : w - pwi.toNat ≤ w' - pwi.toNat := by omega
    have hmono := round1_mono (taper_antitone avg peak havg hap hkk)
    have hfloor := round1_mono
      (le_max_left avg (peak * (4/5) ^ (w - pwi.toNat)))
    have hfloor' := round1_mono
      (le_max_left avg (peak * (4/5) ^ (w' - pwi.toNat)))
    refine ⟨hmono, hfloor, fun hEq => le_antisymm ?_ hfloor'⟩
    calc round1 (max avg (peak * (4/5) ^ (w' - pwi.toNat)))
        ≤ round1 (max avg (peak * (4/5) ^ (w - pwi.toNat))) := hmono
      _ = round1 avg := hEq

/-- Witness for `c4_taper` at `planLengthWeeks = 8`, `avgHours = 10`,
`peakHours = 15`, `peakWeekIndex = 5`, comparing the entries at week
indices 6 and 7. -/
theorem c4_taper_witness :
    (((8 : ℤ) = 8 ∨ (8 : ℤ) = 12 ∨ (8 : ℤ) = 16) ∧ (0 : ℚ) < 10 ∧
        (10 : ℚ) ≤ 15 ∧ (5 : ℤ) = ⌊((8 : ℤ) : ℚ) * (65/100)⌋) ∧
      (TwoTier.buildPlaceholderPlan 0 8 10 15).weeks[(6 : ℕ)]? =
        some ⟨((6 : ℕ) : ℤ) + 1,
          round1 (max 10 (15 * (4/5) ^ ((6 : ℕ) - (5 : ℤ).toNat)))⟩ ∧
      ∀ e e' : WeekEntry,
        (TwoTier.buildPlaceholderPlan 0 8 10 15).weeks[(6 : ℕ)]? = some e →
        (TwoTier.buildPlaceholderPlan 0 8 10 15).weeks[(7 : ℕ)]? = some e' →
        e'.plannedHours ≤ e.plannedHours := by
  have h := c4_taper 0 8 10 15 5 (Or.inl rfl) (by norm_num) (by norm_num)
    (by rw [floor_65_8])
  refine ⟨⟨Or.inl rfl, by norm_num, by norm_num, by rw [floor_65_8]⟩,
    h.1 6 (by norm_num) (by norm_num), ?_⟩
  intro e e' he he'
  exact (h.2 6 7 (by norm_num) (by norm_num) e e' he he').1

/-! ## C9 — planned hours stay within the rounded average/peak band -/

/-- C9: for every input satisfying the precondition
(`planLengthWeeks ∈ {8,12,16}`, `0 < avgHours ≤ peakHours`), every entry of
the two-tier schedule has `plannedHours` between `round1 avgHours` and
`round1 peakHours` inclusive. -/
theorem c9_hours_band (td n : ℤ) (avg peak : ℚ)
    (hn : n = 8 ∨ n = 12 ∨ n = 16) (havg : 0 < avg) (hap : avg ≤ peak) :
    ∀ w : ℕ, ∀ e : WeekEntry,
      (TwoTier.buildPlaceholderPlan td n avg peak).weeks[w]? = some e →
      round1 avg ≤ e.plannedHours ∧ e.plannedHours ≤ round1 peak := by
  intro w e he
  obtain ⟨heq, hwn⟩ := twoTier_entry_of_getElemOpt td n avg peak w e he
  subst heq
  obtain ⟨hlo, hhi⟩ :=
    TwoTier.plannedRaw_bounds avg peak ⌊(n : ℚ) * (65/100)⌋ w havg hap
  exact ⟨round1_mono hlo, round1_mono hhi⟩

/-- Witness for `c9_hours_band` at `planLengthWeeks = 8`, `avgHours = 10`,
`peakHours = 15`, week index 3. -/
theorem c9_hours_band_witness :
    (((8 : ℤ) = 8 ∨ (8 : ℤ) = 12 ∨ (8 : ℤ) = 16) ∧ (0 : ℚ) < 10 ∧
        (10 : ℚ) ≤ 15) ∧
      ∀ e : WeekEntry,
        (TwoTier.buildPlaceholderPlan 0 8 10 15).weeks[(3 : ℕ)]? = some e →
        round1 10 ≤ e.plannedHours ∧ e.plannedHours ≤ round1 15 := by
  have h := c9_hours_band 0 8 10 15 (Or.inl rfl) (by norm_num) (by norm_num)
  exact ⟨⟨Or.inl rfl, by norm_num, by norm_num⟩, fun e he => h 3 e he⟩

/-! ## C5 — futurity rule of the two-tier validator -/

/-- C5: whenever `targetDate` is present, the futurity violation
`"Target date must be in the future."` is in `validate`'s result if and
only if the target day is not strictly after the reference day (so a target
equal to today violates, a past target violates), and the presence
violation — the only other date-related violation — is never produced. -/
theorem c5_futurity (today t : ℤ) (data : TwoTier.InputData)
    (ht : data.targetDate = some t) :
    ("Target date must be in the future." ∈ TwoTier.validate today data ↔
        t ≤ today) ∧
      "Please select a target backyard ultra date."
        ∉ TwoTier.validate today data := by
  obtain ⟨tdf, pl, ah, ph, sd⟩ := data
  dsimp only at ht
  subst ht
  rcases ah with _ | a <;> rcases ph with _ | p <;>
    simp [TwoTier.validate, mem_if_list]

/-- Witness for `c5_futurity` at a past target (day 5, reference day 10):
the futurity violation is present and the presence violation is not. -/
theorem c5_futurity_witness :
    ((⟨some 5, 8, some 10, some 15, ["Sat"]⟩ :
        TwoTier.InputData).targetDate = some 5) ∧
      ("Target date must be in the future." ∈
          TwoTier.validate 10 ⟨some 5, 8, some 10, some 15, ["Sat"]⟩ ↔
        (5 : ℤ) ≤ 10) ∧
      "Please select a target backyard ultra date."
        ∉ TwoTier.validate 10 ⟨some 5, 8, some 10, some 15, ["Sat"]⟩ := by
  have h := c5_futurity 10 5 ⟨some 5, 8, some 10, some 15, ["Sat"]⟩ rfl
  exact ⟨rfl, h.1, h.2⟩

/-! ## C6 — fixed messages in fixed order -/

/-- C6: for every input record, the two-tier `validate` result is a sublist
of the fixed ordered eight-message list: each rule contributes at most one
violation, every violation text matches its rule's fixed string verbatim,
and violations appear in the fixed rule-evaluation order. -/
theorem c6_fixed_messages (today : ℤ) (data : TwoTier.InputData) :
    (TwoTier.validate today data).Sublist canonicalMessages := by
  obtain ⟨tdf, pl, ah, ph, sd⟩ := data
  unfold TwoTier.validate
  rcases tdf with _ | t <;> rcases ah with _ | a <;> rcases ph with _ | p
  all_goals dsimp only
  all_goals
    show List.Sublist _
      ((((((["Please select a target backyard ultra date.",
             "Target date must be in the future."] ++
            ["Please select a training plan length (8, 12, or 16 weeks)."]) ++
           ["Average weekly training hours must be a positive number."]) ++
          ["Peak weekly training hours must be a positive number."]) ++
         ["Peak weekly hours should be greater than or equal to average weekly hours."]) ++
        ["Select at least one training day."]) ++
       ["Average hours per selected training day is very low (<0.25h). Consider adjusting days or hours."])
  all_goals
    refine List.Sublist.append (List.Sublist.append (List.Sublist.append
      (List.Sublist.append (List.Sublist.append (List.Sublist.append ?_ ?_)
        ?_) ?_) ?_) ?_) ?_
  all_goals repeat' split
  all_goals first
    | exact List.nil_sublist _
    | decide

/-! ## C7 — rounding to one decimal, applied to every week -/

/-- C7: `round1` rounds half-up at one decimal — `round1 2.449 = 2.4` and
`round1 2.45 = 2.5` — and every entry of both generators carries the
`round1` image of its computed raw hours (`plannedRaw` for the two-tier
ramp/taper, `avgHours` for the single-tier flat plan). -/
theorem c7_round1 (td n : ℤ) (avg peak : ℚ) :
    round1 (2449/1000) = 24/10 ∧ round1 (245/100) = 25/10 ∧
    (∀ w : ℕ, ∀ e : WeekEntry,
      (TwoTier.buildPlaceholderPlan td n avg peak).weeks[w]? = some e →
      e.plannedHours =
        round1 (TwoTier.plannedRaw avg peak ⌊(n : ℚ) * (65/100)⌋ w)) ∧
    (∀ w : ℕ, ∀ e : WeekEntry,
      (SingleTier.buildPlaceholderPlan td n avg).weeks[w]? = some e →
      e.plannedHours = round1 avg) := by
  refine ⟨?_, ?_, ?_, ?_⟩
  · have h1 : ⌊(2449/1000 : ℚ) * 10 + 1/2⌋ = 24 := by
      rw [Int.floor_eq_iff]
      norm_num
    unfold round1 jsRound
    rw [h1]
    norm_num
  · have h1 : ⌊(245/100 : ℚ) * 10 + 1/2⌋ = 25 := by
      rw [Int.floor_eq_iff]
      norm_num
    unfold round1 jsRound
    rw [h1]
    norm_num
  · intro w e he
    rw [(twoTier_entry_of_getElemOpt td n avg peak w e he).1]
  · intro w e he
    rw [(singleTier_entry_of_getElemOpt td n avg w e he).1]

/-! ## C8 — determinism, totality, empty list iff no rule fails -/

/-- C8: both validators are pure functions of the record (and the sampled
reference day): evaluating twice gives equal lists, the functions are total
(they are plain Lean functions returning a list, never an exception), and
the result is the empty sequence exactly when no rule fails. -/
theorem c8_deterministic_total (today : ℤ) (d2 : TwoTier.InputData)
    (d1 : SingleTier.DataInput) :
    (TwoTier.validate today d2 = TwoTier.validate today d2) ∧
    (SingleTier.validateDataInput d1 = SingleTier.validateDataInput d1) ∧
    (TwoTier.validate today d2 = [] ↔ TwoTier.passesAll today d2) ∧
    (SingleTier.validateDataInput d1 = [] ↔ SingleTier.passesAll d1) := by
  refine ⟨rfl, rfl, ?_, ?_⟩
  · obtain ⟨tdf, pl, ah, ph, sd⟩ := d2
    rcases tdf with _ | t <;> rcases ah with _ | a <;> rcases ph with _ | p <;>
      simp [TwoTier.validate, TwoTier.passesAll, if_eq_nil_iff] <;> try tauto
  · obtain ⟨tdf, pl, ah, sd⟩ := d1
    rcases tdf with _ | t <;> rcases ah with _ | a <;>
      simp [SingleTier.validateDataInput, SingleTier.passesAll,
        if_eq_nil_iff] <;> try tauto

end BackyardUltra
